import Mathlib

/-!
Shallow embedding of `internal/ceres/dense_cholesky.cc` (Ceres Solver's dense
Cholesky backends): the Eigen reference backend, the LAPACK vendor backend and
the two CUDA backends (32-bit and 64-bit index widths), together with the
shared `DenseCholesky::FactorAndSolve` composition.

External native routines (LAPACK's `dpotrf_`/`dpotrs_`, Eigen's LLT, the
cuSolver kernels and the CUDA synchronization calls) are bound as explicit
parameters, so every theorem quantifies over their possible behaviours.
`LOG(FATAL)` aborts the process; it is embedded as the `logFatal` outcome.
Machine doubles never influence control flow here, so buffer contents are
represented by `List Int` values that the abstract routines transform.
-/

namespace Ceres

/-- `LinearSolverTerminationType` (the three values `dense_cholesky.cc` uses). -/
inductive LinearSolverTerminationType where
  | LINEAR_SOLVER_SUCCESS
  | LINEAR_SOLVER_FAILURE
  | LINEAR_SOLVER_FATAL_ERROR
deriving DecidableEq, Repr

open LinearSolverTerminationType

/-- The observable outcome of one backend call: a normal return carrying the
termination status, the message written through the `std::string*` argument
and the returned value / updated state; `logFatal` for a `LOG(FATAL)` process
abort; `undef` for undefined behaviour (a null-pointer dereference). -/
inductive COutcome (α : Type) where
  | ok (status : LinearSolverTerminationType) (message : String) (val : α)
  | logFatal (message : String)
  | undef
deriving DecidableEq, Repr

/-- The termination status of a normal return, if any. -/
def COutcome.statusOf {α : Type} : COutcome α → Option LinearSolverTerminationType
  | .ok s _ _ => some s
  | .logFatal _ => none
  | .undef => none

/-- The caller-visible buffer of a normal return, if any (outcomes below pair
the caller's buffer with the updated backend state). -/
def COutcome.bufOf {α σ : Type} : COutcome (α × σ) → Option α
  | .ok _ _ v => some v.1
  | .logFatal _ => none
  | .undef => none

/-- The updated backend state of a normal return, if any. -/
def COutcome.stateOf {α : Type} : COutcome α → Option α
  | .ok _ _ v => some v
  | .logFatal _ => none
  | .undef => none

/-- `false` exactly on the undefined-behaviour outcome. -/
def COutcome.isDefined {α : Type} : COutcome α → Bool
  | .undef => false
  | .ok _ _ _ => true
  | .logFatal _ => true

/-- `std::copy_n(src, n, dst)`: the first `n` elements of `dst` are replaced
by the first `n` elements of `src`; the rest of `dst` is untouched. -/
def copy_n (src : List Int) (n : Nat) (dst : List Int) : List Int :=
  src.take n ++ dst.drop n

/-! ## Vendor (LAPACK) backend -/

/-- The external LAPACK routines, bound as pure functions.
`dpotrf n a = (a2, info)`: the in-place lower-triangular Cholesky
factorization of the caller's buffer `a`, returning the overwritten buffer
and the signed `info` code. `dpotrs n a b = (b2, info)`: the paired
triangular solve, overwriting the right-hand-side buffer `b`. -/
structure LapackRoutines where
  dpotrf : Nat → List Int → List Int × Int
  dpotrs : Nat → List Int → List Int → List Int × Int

/-- `LAPACKDenseCholesky`'s members: the stored pointer into the caller's
buffer (represented by the buffer's contents), the dimension, and the last
recorded termination type. -/
structure LAPACKDenseCholesky where
  lhs_ : List Int
  num_cols_ : Nat
  termination_type_ : LinearSolverTerminationType
deriving DecidableEq, Repr

/-- `LAPACKDenseCholesky::Factorize` (dense_cholesky.cc 139-165): stores the
caller's buffer pointer and dimension, runs `dpotrf_` in place, and
classifies `info`: negative is a `LOG(FATAL)` contract violation, positive
`k` is a numerical Failure naming `k`, zero is Success. The caller's buffer
after the call (first component of the payload) is the routine's output. -/
def LAPACKDenseCholesky.Factorize (R : LapackRoutines) (st : LAPACKDenseCholesky)
    (num_cols : Nat) (lhs : List Int) :
    COutcome (List Int × LAPACKDenseCholesky) :=
  let p := R.dpotrf num_cols lhs
  let info := p.2
  if info < 0 then
    COutcome.logFatal
      ("Congratulations, you found a bug in Ceres. Please report it. LAPACK::dpotrf fatal error. Argument: "
        ++ toString (-info) ++ " is invalid.")
  else if info > 0 then
    COutcome.ok LINEAR_SOLVER_FAILURE
      ("LAPACK::dpotrf numerical failure. The leading minor of order "
        ++ toString info ++ " is not positive definite.")
      (p.1, { lhs_ := p.1, num_cols_ := num_cols,
              termination_type_ := LINEAR_SOLVER_FAILURE })
  else
    COutcome.ok LINEAR_SOLVER_SUCCESS "Success."
      (p.1, { lhs_ := p.1, num_cols_ := num_cols,
              termination_type_ := LINEAR_SOLVER_SUCCESS })

/-- `LAPACKDenseCholesky::Solve` (dense_cholesky.cc 167-190): copies `rhs`
into `solution`, runs `dpotrs_` on the stored factor and `solution`, and
`LOG(FATAL)`s on negative `info`; any other `info` (zero or positive) falls
through to `"Success"`. There is no check of `termination_type_` on entry. -/
def LAPACKDenseCholesky.Solve (R : LapackRoutines) (st : LAPACKDenseCholesky)
    (rhs : List Int) (solution : List Int) :
    COutcome (List Int × LAPACKDenseCholesky) :=
  let p := R.dpotrs st.num_cols_ st.lhs_ (copy_n rhs st.num_cols_ solution)
  let info := p.2
  if info < 0 then
    COutcome.logFatal
      ("Congratulations, you found a bug in Ceres. Please report it. LAPACK::dpotrs fatal error. Argument: "
        ++ toString (-info) ++ " is invalid.")
  else
    COutcome.ok LINEAR_SOLVER_SUCCESS "Success"
      (p.1, { st with termination_type_ := LINEAR_SOLVER_SUCCESS })

/-! ## Reference (Eigen) backend -/

/-- Eigen's LLT decomposition object, bound abstractly: `info` is `true` when
the decomposition reports `Eigen::Success`, `cols` its dimension, and
`solveApply` the forward/back substitution `llt.solve`. -/
structure LLTType where
  info : Bool
  cols : Nat
  solveApply : List Int → List Int

/-- `EigenDenseCholesky`'s one member: `llt_`, a `std::unique_ptr<LLTType>`;
`none` models the null pointer. -/
structure EigenDenseCholesky where
  llt_ : Option LLTType

/-- Modelled from the spec: a fresh `EigenDenseCholesky` instance. The member
`llt_` is declared in `dense_cholesky.h` (not under src/); a default
`std::unique_ptr` is null, matching the spec's Unfactored starting state. -/
def EigenDenseCholesky.initial : EigenDenseCholesky := { llt_ := none }

/-- `EigenDenseCholesky::Factorize` (dense_cholesky.cc 111-122): builds a new
LLT object over the matrix (the caller's buffer is only read) and reports
Failure when the decomposition's own success flag is not `Eigen::Success`. -/
def EigenDenseCholesky.Factorize (mkLLT : Nat → List Int → LLTType)
    (st : EigenDenseCholesky) (num_cols : Nat) (lhs : List Int) :
    COutcome EigenDenseCholesky :=
  let llt := mkLLT num_cols lhs
  if llt.info ≠ true then
    COutcome.ok LINEAR_SOLVER_FAILURE
      "Eigen failure. Unable to perform dense Cholesky factorization."
      { llt_ := some llt }
  else
    COutcome.ok LINEAR_SOLVER_SUCCESS "Success." { llt_ := some llt }

/-- `EigenDenseCholesky::Solve` (dense_cholesky.cc 124-136): dereferences
`llt_` (undefined behaviour when it is null), returns Failure when the stored
decomposition did not succeed, and otherwise overwrites the first
`llt_->cols()` entries of `solution` with the substitution's result. -/
def EigenDenseCholesky.Solve (st : EigenDenseCholesky)
    (rhs : List Int) (solution : List Int) :
    COutcome (List Int × EigenDenseCholesky) :=
  match st.llt_ with
  | none => COutcome.undef
  | some llt =>
    if llt.info ≠ true then
      COutcome.ok LINEAR_SOLVER_FAILURE
        "Eigen failure. Unable to perform dense Cholesky factorization."
        (solution, st)
    else
      COutcome.ok LINEAR_SOLVER_SUCCESS "Success."
        ((llt.solveApply rhs).take llt.cols ++ solution.drop llt.cols, st)

/-! ## GPU (CUDA) backends -/

/-- `cudaSuccess`, the zero value of `cudaError_t`. -/
def cudaSuccess : Int := 0

/-- The C comma operator: evaluate the left operand, discard its value, and
yield the right operand. -/
def commaOp {α β : Type} (a : α) (b : β) : β := b

/-- Modelled from the spec: the Device Buffer Manager (`CudaBuffer` of
`cuda_buffer.h`, which is not under src/): an accelerator-resident buffer
whose `Reserve` grows but never shrinks the capacity (a growing reservation
reallocates, so previous contents are not preserved), with copy-in and
copy-out operations. Freshly reserved device memory is modelled as zeros. -/
structure CudaBuffer where
  capacity : Nat
  data : List Int
deriving DecidableEq, Repr

/-- Modelled from the spec: grow-only reservation. -/
def CudaBuffer.Reserve (b : CudaBuffer) (size : Nat) : CudaBuffer :=
  if b.capacity < size then { capacity := size, data := List.replicate size 0 }
  else b

/-- Modelled from the spec: copy the first `n` host elements into the start
of the device buffer. -/
def CudaBuffer.CopyToGpu (b : CudaBuffer) (src : List Int) (n : Nat) : CudaBuffer :=
  { b with data := src.take n ++ b.data.drop n }

/-- Modelled from the spec: copy the first `n` device elements out over the
start of the host buffer `dst`, returning the updated host buffer. -/
def CudaBuffer.CopyToHost (b : CudaBuffer) (dst : List Int) (n : Nat) : List Int :=
  b.data.take n ++ dst.drop n

/-- Outcomes of the external cuSolver/CUDA calls the 32-bit backend makes,
bound as plain values: the `Ok` fields are `true` when the corresponding call
returns `CUSOLVER_STATUS_SUCCESS`; `deviceSync` and `streamSync` are the
`cudaError_t` codes returned by `cudaDeviceSynchronize()` and
`cudaStreamSynchronize(stream_)` (`0` = `cudaSuccess`); `potrfFactor` and
`potrfInfo` are what the factorization kernel leaves in the device `lhs_`
buffer and the 1-element error cell; `potrsSolution` and `potrsInfo`
likewise for the triangular-solve kernel and the `rhs_` buffer. -/
structure Cuda32Env where
  bufferSizeOk : Bool
  device_workspace_size : Nat
  potrfOk : Bool
  potrfFactor : List Int
  potrfInfo : Int
  deviceSync : Int
  streamSync : Int
  potrsOk : Bool
  potrsSolution : List Int
  potrsInfo : Int
deriving DecidableEq, Repr

/-- `CUDADenseCholesky32Bit`'s members: the dimension, the device-resident
`lhs_`, `rhs_`, scratch and 1-element error-cell buffers, and the recorded
result of the last Factorize. -/
structure CUDADenseCholesky32Bit where
  num_cols_ : Nat
  lhs_ : CudaBuffer
  rhs_ : CudaBuffer
  device_workspace_ : CudaBuffer
  error_ : CudaBuffer
  factorize_result_ : LinearSolverTerminationType
deriving DecidableEq, Repr

/-- Modelled from the spec: a fresh 32-bit instance right after a successful
`Init` (dense_cholesky.cc 196-216). `Init` reserves the 1-element error cell;
the remaining member initializers live in `dense_cholesky.h` (not under
src/): empty device buffers and no recorded successful factorization —
`factorize_result_` starts at `FatalError`, so the spec's invariant that
Solve succeeds only after `FactorizeSucceeded` holds from the Unfactored
state. -/
def CUDADenseCholesky32Bit.afterInit : CUDADenseCholesky32Bit :=
  { num_cols_ := 0
    lhs_ := { capacity := 0, data := [] }
    rhs_ := { capacity := 0, data := [] }
    device_workspace_ := { capacity := 0, data := [] }
    error_ := CudaBuffer.Reserve { capacity := 0, data := [] } 1
    factorize_result_ := LINEAR_SOLVER_FATAL_ERROR }

/-- `CUDADenseCholesky32Bit::Factorize` (dense_cholesky.cc 225-286): records
a pessimistic `factorize_result_`, grow-only reserves and fills the device
`lhs_`, queries and reserves the scratch workspace, launches `potrf`, then
runs the synchronization check — whose condition is the C comma expression
`(cudaDeviceSynchronize() != cudaSuccess || cudaStreamSynchronize(stream_)),
cudaSuccess`, i.e. the constant `cudaSuccess` — and finally copies the error
cell back and classifies it. The first payload component is the caller's
host buffer after the call. -/
def CUDADenseCholesky32Bit.Factorize (env : Cuda32Env)
    (st : CUDADenseCholesky32Bit) (num_cols : Nat) (lhs : List Int) :
    COutcome (List Int × CUDADenseCholesky32Bit) :=
  let st1 := { st with factorize_result_ := LINEAR_SOLVER_FATAL_ERROR }
  let st2 := { st1 with lhs_ := st1.lhs_.Reserve (num_cols * num_cols),
                        num_cols_ := num_cols }
  let st3 := { st2 with lhs_ := st2.lhs_.CopyToGpu lhs (num_cols * num_cols) }
  if env.bufferSizeOk = false then
    COutcome.ok LINEAR_SOLVER_FATAL_ERROR
      "cuSolverDN::cusolverDnDpotrf_bufferSize failed." (lhs, st3)
  else
  let st4 := { st3 with device_workspace_ :=
                 st3.device_workspace_.Reserve env.device_workspace_size }
  if env.potrfOk = false then
    COutcome.ok LINEAR_SOLVER_FATAL_ERROR
      "cuSolverDN::cusolverDnDpotrf failed." (lhs, st4)
  else
  let st5 := { st4 with lhs_ := { st4.lhs_ with data := env.potrfFactor },
                        error_ := { st4.error_ with data := [env.potrfInfo] } }
  if commaOp (decide (env.deviceSync ≠ cudaSuccess) || decide (env.streamSync ≠ 0))
      cudaSuccess ≠ 0 then
    COutcome.ok LINEAR_SOLVER_FATAL_ERROR
      "Cuda device synchronization failed." (lhs, st5)
  else
  let error : Int := (st5.error_.CopyToHost [0] 1).headD 0
  if error < 0 then
    COutcome.logFatal
      ("Congratulations, you found a bug in Ceres - please report it. cuSolverDN::cusolverDnXpotrf fatal error. Argument: "
        ++ toString (-error) ++ " is invalid.")
  else if error > 0 then
    COutcome.ok LINEAR_SOLVER_FAILURE
      ("cuSolverDN::cusolverDnDpotrf numerical failure. The leading minor of order "
        ++ toString error ++ " is not positive definite.")
      (lhs, { st5 with factorize_result_ := LINEAR_SOLVER_FAILURE })
  else
    COutcome.ok LINEAR_SOLVER_SUCCESS "Success"
      (lhs, { st5 with factorize_result_ := LINEAR_SOLVER_SUCCESS })

/-- `CUDADenseCholesky32Bit::Solve` (dense_cholesky.cc 288-328): returns the
recorded `factorize_result_` at once (with its misspelt diagnostic) unless
the last Factorize succeeded; otherwise copies `rhs` to the device, launches
`potrs`, runs the same dead comma-expression synchronization check as
Factorize, declares a host `error` variable initialized to zero, copies the
solution back, tests that still-zero host variable, only then copies the
device error cell into it (discarding the value), and returns Success. -/
def CUDADenseCholesky32Bit.Solve (env : Cuda32Env)
    (st : CUDADenseCholesky32Bit) (rhs : List Int) (solution : List Int) :
    COutcome (List Int × CUDADenseCholesky32Bit) :=
  if st.factorize_result_ ≠ LINEAR_SOLVER_SUCCESS then
    COutcome.ok st.factorize_result_
      "Factorize did not complete succesfully previously." (solution, st)
  else
  let st1 := { st with rhs_ := st.rhs_.CopyToGpu rhs st.num_cols_ }
  if env.potrsOk = false then
    COutcome.ok LINEAR_SOLVER_FATAL_ERROR
      "cuSolverDN::cusolverDnDpotrs failed." (solution, st1)
  else
  let st2 := { st1 with rhs_ := { st1.rhs_ with data := env.potrsSolution },
                        error_ := { st1.error_ with data := [env.potrsInfo] } }
  if commaOp (decide (env.deviceSync ≠ cudaSuccess) || decide (env.streamSync ≠ 0))
      cudaSuccess ≠ 0 then
    COutcome.ok LINEAR_SOLVER_FATAL_ERROR
      "Cuda device synchronization failed." (solution, st2)
  else
  let error : Int := 0
  let solution1 := st2.rhs_.CopyToHost solution st2.num_cols_
  if error ≠ 0 then
    COutcome.logFatal
      ("Congratulations, you found a bug in Ceres. Please report it.cuSolverDN::cusolverDnDpotrs fatal error. Argument: "
        ++ toString (-error) ++ " is invalid.")
  else
  commaOp (st2.error_.CopyToHost [error] 1)
    (COutcome.ok LINEAR_SOLVER_SUCCESS "Success" (solution1, st2))

/-- Outcomes of the external calls the 64-bit backend makes, as for
`Cuda32Env`; the 64-bit buffer-size query additionally reports a host
workspace size. -/
structure Cuda64Env where
  bufferSizeOk : Bool
  host_workspace_size : Nat
  device_workspace_size : Nat
  potrfOk : Bool
  potrfFactor : List Int
  potrfInfo : Int
  deviceSync : Int
  streamSync : Int
  potrsOk : Bool
  potrsSolution : List Int
  potrsInfo : Int
deriving DecidableEq, Repr

/-- `CUDADenseCholesky64Bit`'s members: as in the 32-bit variant, plus the
host scratch vector `host_workspace_` (represented by its size). -/
structure CUDADenseCholesky64Bit where
  num_cols_ : Nat
  lhs_ : CudaBuffer
  rhs_ : CudaBuffer
  device_workspace_ : CudaBuffer
  host_workspace_ : Nat
  error_ : CudaBuffer
  factorize_result_ : LinearSolverTerminationType
deriving DecidableEq, Repr

/-- Modelled from the spec: a fresh 64-bit instance right after a successful
`Init` (dense_cholesky.cc 389-409), as for the 32-bit variant. -/
def CUDADenseCholesky64Bit.afterInit : CUDADenseCholesky64Bit :=
  { num_cols_ := 0
    lhs_ := { capacity := 0, data := [] }
    rhs_ := { capacity := 0, data := [] }
    device_workspace_ := { capacity := 0, data := [] }
    host_workspace_ := 0
    error_ := CudaBuffer.Reserve { capacity := 0, data := [] } 1
    factorize_result_ := LINEAR_SOLVER_FATAL_ERROR }

/-- `CUDADenseCholesky64Bit::Factorize` (dense_cholesky.cc 418-492): as the
32-bit variant but through the `Xpotrf` API with host and device workspaces,
and with an intact synchronization check. -/
def CUDADenseCholesky64Bit.Factorize (env : Cuda64Env)
    (st : CUDADenseCholesky64Bit) (num_cols : Nat) (lhs : List Int) :
    COutcome (List Int × CUDADenseCholesky64Bit) :=
  let st1 := { st with factorize_result_ := LINEAR_SOLVER_FATAL_ERROR }
  let st2 := { st1 with lhs_ := st1.lhs_.Reserve (num_cols * num_cols),
                        num_cols_ := num_cols }
  let st3 := { st2 with lhs_ := st2.lhs_.CopyToGpu lhs (num_cols * num_cols) }
  if env.bufferSizeOk = false then
    COutcome.ok LINEAR_SOLVER_FATAL_ERROR
      "cuSolverDN::cusolverDnXpotrf_bufferSize failed." (lhs, st3)
  else
  let st4 := { st3 with host_workspace_ := env.host_workspace_size,
                        device_workspace_ :=
                 st3.device_workspace_.Reserve env.device_workspace_size }
  if env.potrfOk = false then
    COutcome.ok LINEAR_SOLVER_FATAL_ERROR
      "cuSolverDN::cusolverDnXpotrf failed." (lhs, st4)
  else
  let st5 := { st4 with lhs_ := { st4.lhs_ with data := env.potrfFactor },
                        error_ := { st4.error_ with data := [env.potrfInfo] } }
  if env.deviceSync ≠ cudaSuccess ∨ env.streamSync ≠ cudaSuccess then
    COutcome.ok LINEAR_SOLVER_FATAL_ERROR
      "Cuda device synchronization failed." (lhs, st5)
  else
  let error : Int := (st5.error_.CopyToHost [0] 1).headD 0
  if error < 0 then
    COutcome.logFatal
      ("Congratulations, you found a bug in Ceres - please report it. cuSolverDN::cusolverDnXpotrf fatal error. Argument: "
        ++ toString (-error) ++ " is invalid.")
  else if error > 0 then
    COutcome.ok LINEAR_SOLVER_FAILURE
      ("cuSolverDN::cusolverDnXpotrf numerical failure. The leading minor of order "
        ++ toString error ++ " is not positive definite.")
      (lhs, { st5 with factorize_result_ := LINEAR_SOLVER_FAILURE })
  else
    COutcome.ok LINEAR_SOLVER_SUCCESS "Success"
      (lhs, { st5 with factorize_result_ := LINEAR_SOLVER_SUCCESS })

/-- `CUDADenseCholesky64Bit::Solve` (dense_cholesky.cc 494-537): the guard
and kernel launch as in the 32-bit variant, but the synchronization check is
intact, and the device error cell really is copied back and tested — any
nonzero value `LOG(FATAL)`s — before the solution is copied to the host. -/
def CUDADenseCholesky64Bit.Solve (env : Cuda64Env)
    (st : CUDADenseCholesky64Bit) (rhs : List Int) (solution : List Int) :
    COutcome (List Int × CUDADenseCholesky64Bit) :=
  if st.factorize_result_ ≠ LINEAR_SOLVER_SUCCESS then
    COutcome.ok st.factorize_result_
      "Factorize did not complete succesfully previously." (solution, st)
  else
  let st1 := { st with rhs_ := st.rhs_.CopyToGpu rhs st.num_cols_ }
  if env.potrsOk = false then
    COutcome.ok LINEAR_SOLVER_FATAL_ERROR
      "cuSolverDN::cusolverDnXpotrs failed." (solution, st1)
  else
  let st2 := { st1 with rhs_ := { st1.rhs_ with data := env.potrsSolution },
                        error_ := { st1.error_ with data := [env.potrsInfo] } }
  if env.deviceSync ≠ cudaSuccess ∨ env.streamSync ≠ cudaSuccess then
    COutcome.ok LINEAR_SOLVER_FATAL_ERROR
      "Cuda device synchronization failed." (solution, st2)
  else
  let error : Int := (st2.error_.CopyToHost [0] 1).headD 0
  if error ≠ 0 then
    COutcome.logFatal
      ("Congratulations, you found a bug in Ceres. Please report it. cuSolverDN::cusolverDnXpotrs fatal error. Argument: "
        ++ toString (-error) ++ " is invalid.")
  else
    COutcome.ok LINEAR_SOLVER_SUCCESS "Success"
      (st2.rhs_.CopyToHost solution st2.num_cols_, st2)

/-! ## FactorAndSolve -/

/-- One virtual call `DenseCholesky::FactorAndSolve` makes. -/
inductive CallEvent where
  | factorizeCall
  | solveCall
deriving DecidableEq, Repr

/-- `DenseCholesky::FactorAndSolve` (dense_cholesky.cc 97-109) over the
virtual `Factorize`/`Solve`, abstracted by the statuses those calls would
return; the second component records the sequence of virtual calls made. -/
def DenseCholesky.FactorAndSolve
    (factorizeStatus solveStatus : LinearSolverTerminationType) :
    LinearSolverTerminationType × List CallEvent :=
  let termination_type := factorizeStatus
  if termination_type = LINEAR_SOLVER_SUCCESS then
    (solveStatus, [CallEvent.factorizeCall, CallEvent.solveCall])
  else
    (termination_type, [CallEvent.factorizeCall])

/-! ## Concrete instances used by the closed theorems -/

/-- The message of an outcome: the string left in the caller's `std::string`
on a normal return, or the text a `LOG(FATAL)` abort reports. -/
def COutcome.messageOf {α : Type} : COutcome α → Option String
  | .ok _ m _ => some m
  | .logFatal m => some m
  | .undef => none

/-- Modelled from the spec: a fresh Vendor-backend instance (the member
initializers are declared in `dense_cholesky.h`, not under src/): no stored
buffer, dimension zero and no successful factorization recorded. -/
def LAPACKDenseCholesky.fresh : LAPACKDenseCholesky :=
  { lhs_ := [], num_cols_ := 0, termination_type_ := LINEAR_SOLVER_FATAL_ERROR }

/-- A concrete behaviour of the LAPACK routines in which `dpotrf_` overwrites
the buffer with zeros and reports success, and `dpotrs_` succeeds leaving the
right-hand-side buffer as given. -/
def zeroingRoutines : LapackRoutines :=
  { dpotrf := fun n _ => (List.replicate n 0, 0)
    dpotrs := fun _ _ b => (b, 0) }

/-- A concrete behaviour in which `dpotrf_` reports a numerical failure at
leading-minor index 1 (buffer left as given) and `dpotrs_` succeeds. -/
def failThenSolveRoutines : LapackRoutines :=
  { dpotrf := fun _ a => (a, 1)
    dpotrs := fun _ _ b => (b, 0) }

/-- A concrete behaviour in which `dpotrf_` succeeds in place and `dpotrs_`
returns the positive status code 1. -/
def positiveInfoRoutines : LapackRoutines :=
  { dpotrf := fun _ a => (a, 0)
    dpotrs := fun _ _ b => (b, 1) }

/-- A 32-bit device environment in which every external call succeeds: the
factorization kernel leaves the factor `[2]` and a zero error cell, the
solve kernel leaves the solution `[9]` and a zero error cell. -/
def allOkEnv32 : Cuda32Env :=
  { bufferSizeOk := true, device_workspace_size := 2, potrfOk := true,
    potrfFactor := [2], potrfInfo := 0, deviceSync := 0, streamSync := 0,
    potrsOk := true, potrsSolution := [9], potrsInfo := 0 }

/-- The matching 64-bit all-success environment. -/
def allOkEnv64 : Cuda64Env :=
  { bufferSizeOk := true, host_workspace_size := 1, device_workspace_size := 2,
    potrfOk := true, potrfFactor := [2], potrfInfo := 0, deviceSync := 0,
    streamSync := 0, potrsOk := true, potrsSolution := [9], potrsInfo := 0 }

/-- `allOkEnv32` except that both `cudaDeviceSynchronize()` and
`cudaStreamSynchronize(stream_)` fail, returning the error code 1. -/
def syncFailEnv32 : Cuda32Env :=
  { allOkEnv32 with deviceSync := 1, streamSync := 1 }

/-- The matching 64-bit synchronization-failure environment. -/
def syncFailEnv64 : Cuda64Env :=
  { allOkEnv64 with deviceSync := 1, streamSync := 1 }

/-- `allOkEnv32` except that the workspace-size query fails. -/
def bufSizeFailEnv32 : Cuda32Env :=
  { allOkEnv32 with bufferSizeOk := false }

/-- `allOkEnv32` except that the solve kernel leaves the positive code 1 in
the device error cell. -/
def badCellEnv32 : Cuda32Env :=
  { allOkEnv32 with potrsInfo := 1 }

/-- The matching 64-bit bad-error-cell environment. -/
def badCellEnv64 : Cuda64Env :=
  { allOkEnv64 with potrsInfo := 1 }

/-- The Vendor-backend state reached by the successful
`Factorize positiveInfoRoutines fresh 1 [2]`. -/
def lapackFactorizedState : LAPACKDenseCholesky :=
  ((LAPACKDenseCholesky.Factorize positiveInfoRoutines
      LAPACKDenseCholesky.fresh 1 [2]).stateOf.getD
    ([], LAPACKDenseCholesky.fresh)).2

/-- The 32-bit instance state reached by a successful
`Factorize allOkEnv32 afterInit 1 [4]`. -/
def factorized32 : CUDADenseCholesky32Bit :=
  ((CUDADenseCholesky32Bit.Factorize allOkEnv32
      CUDADenseCholesky32Bit.afterInit 1 [4]).stateOf.getD
    ([], CUDADenseCholesky32Bit.afterInit)).2

/-- The 64-bit instance state reached by a successful
`Factorize allOkEnv64 afterInit 1 [4]`. -/
def factorized64 : CUDADenseCholesky64Bit :=
  ((CUDADenseCholesky64Bit.Factorize allOkEnv64
      CUDADenseCholesky64Bit.afterInit 1 [4]).stateOf.getD
    ([], CUDADenseCholesky64Bit.afterInit)).2

/-- The 32-bit instance state reached by the fatally failing
`Factorize bufSizeFailEnv32 afterInit 1 [4]`. -/
def fatalState32 : CUDADenseCholesky32Bit :=
  ((CUDADenseCholesky32Bit.Factorize bufSizeFailEnv32
      CUDADenseCholesky32Bit.afterInit 1 [4]).stateOf.getD
    ([], CUDADenseCholesky32Bit.afterInit)).2

/-- The Vendor-backend state reached by
`Factorize failThenSolveRoutines fresh 1 [5]`, which returned Failure. -/
def failedLapackState : LAPACKDenseCholesky :=
  ((LAPACKDenseCholesky.Factorize failThenSolveRoutines
      LAPACKDenseCholesky.fresh 1 [5]).stateOf.getD
    ([], LAPACKDenseCholesky.fresh)).2

/-! ## Claim theorems -/

/-- C7: for every pair of statuses the virtual calls would return,
`FactorAndSolve` makes exactly one Factorize call; it makes a Solve call
exactly when Factorize returned Success, in which case it returns Solve's
status, and otherwise it returns Factorize's status unchanged. -/
theorem C7_factor_and_solve_composition (f s : LinearSolverTerminationType) :
    (DenseCholesky.FactorAndSolve f s).2.count CallEvent.factorizeCall = 1 ∧
    (CallEvent.solveCall ∈ (DenseCholesky.FactorAndSolve f s).2 ↔
      f = LINEAR_SOLVER_SUCCESS) ∧
    (DenseCholesky.FactorAndSolve f s).1 =
      (if f = LINEAR_SOLVER_SUCCESS then s else f) := by
  by_cases h : f = LINEAR_SOLVER_SUCCESS <;>
    simp [DenseCholesky.FactorAndSolve, h]

/-- C10: the Eigen backend's Solve dereferences the decomposition pointer
before any guard can run: on a fresh instance (null `llt_`) the call has no
defined result, whereas every Factorize call — whatever the decomposition
reports — leaves `llt_` set, after which Solve is defined and its
no-computation error path can fire. -/
theorem C10_eigen_solve_unguarded_deref (rhs sol : List Int)
    (mkLLT : Nat → List Int → LLTType) (st : EigenDenseCholesky)
    (n : Nat) (lhs : List Int) :
    EigenDenseCholesky.initial.Solve rhs sol = COutcome.undef ∧
    (EigenDenseCholesky.Factorize mkLLT st n lhs).stateOf =
      some { llt_ := some (mkLLT n lhs) } ∧
    (EigenDenseCholesky.Solve { llt_ := some (mkLLT n lhs) } rhs sol).isDefined
      = true := by
  refine ⟨rfl, ?_, ?_⟩
  · unfold EigenDenseCholesky.Factorize
    dsimp only
    split <;> rfl
  · unfold EigenDenseCholesky.Solve
    dsimp only
    split <;> rfl

/-- C9: on every normal return, a GPU Factorize hands the caller back the
host lhs buffer unchanged (both variants, every path), while the Vendor
backend hands back exactly the buffer `dpotrf_` produced in place — and a
factorization routine really can overwrite it, as the closing concrete
instance (buffer `[5]` turned into `[0]`) shows. -/
theorem C9_factorize_host_buffer_frame (env32 : Cuda32Env) (env64 : Cuda64Env)
    (st32 : CUDADenseCholesky32Bit) (st64 : CUDADenseCholesky64Bit)
    (R : LapackRoutines) (stL : LAPACKDenseCholesky) (n : Nat) (lhs : List Int) :
    ((CUDADenseCholesky32Bit.Factorize env32 st32 n lhs).bufOf = some lhs ∨
      (CUDADenseCholesky32Bit.Factorize env32 st32 n lhs).bufOf = none) ∧
    ((CUDADenseCholesky64Bit.Factorize env64 st64 n lhs).bufOf = some lhs ∨
      (CUDADenseCholesky64Bit.Factorize env64 st64 n lhs).bufOf = none) ∧
    ((LAPACKDenseCholesky.Factorize R stL n lhs).bufOf =
        some (R.dpotrf n lhs).1 ∨
      (LAPACKDenseCholesky.Factorize R stL n lhs).bufOf = none) ∧
    ((LAPACKDenseCholesky.Factorize zeroingRoutines LAPACKDenseCholesky.fresh
        1 [5]).bufOf = some [0] ∧ [0] ≠ [5]) := by
  refine ⟨?_, ?_, ?_, by decide⟩
  · unfold CUDADenseCholesky32Bit.Factorize
    dsimp only
    split
    · exact Or.inl rfl
    split
    · exact Or.inl rfl
    split
    · exact Or.inl rfl
    split
    · exact Or.inr rfl
    split
    · exact Or.inl rfl
    · exact Or.inl rfl
  · unfold CUDADenseCholesky64Bit.Factorize
    dsimp only
    split
    · exact Or.inl rfl
    split
    · exact Or.inl rfl
    split
    · exact Or.inl rfl
    split
    · exact Or.inr rfl
    split
    · exact Or.inl rfl
    · exact Or.inl rfl
  · unfold LAPACKDenseCholesky.Factorize
    dsimp only
    split
    · exact Or.inr rfl
    split
    · exact Or.inl rfl
    · exact Or.inl rfl

/-- C1: at the concrete input n = 1, lhs = `[4]`, with every device call
succeeding but both `cudaDeviceSynchronize()` and `cudaStreamSynchronize`
returning the error code 1, the 32-bit Factorize and the 32-bit Solve both
return Success — their synchronization check is the C comma expression
`(... != cudaSuccess || ...), cudaSuccess`, whose value is the constant
`cudaSuccess`, so the failure is silently ignored — while the 64-bit
Factorize and Solve return FatalError with the diagnostic
"Cuda device synchronization failed.". -/
theorem C1_sync_failure_silently_ignored_in_32bit :
    (CUDADenseCholesky32Bit.Factorize syncFailEnv32
        CUDADenseCholesky32Bit.afterInit 1 [4]).statusOf =
      some LINEAR_SOLVER_SUCCESS ∧
    (CUDADenseCholesky32Bit.Solve syncFailEnv32 factorized32 [7] [0]).statusOf =
      some LINEAR_SOLVER_SUCCESS ∧
    (CUDADenseCholesky64Bit.Factorize syncFailEnv64
        CUDADenseCholesky64Bit.afterInit 1 [4]).statusOf =
      some LINEAR_SOLVER_FATAL_ERROR ∧
    (CUDADenseCholesky64Bit.Factorize syncFailEnv64
        CUDADenseCholesky64Bit.afterInit 1 [4]).messageOf =
      some "Cuda device synchronization failed." ∧
    (CUDADenseCholesky64Bit.Solve syncFailEnv64 factorized64 [7] [0]).statusOf =
      some LINEAR_SOLVER_FATAL_ERROR ∧
    (CUDADenseCholesky64Bit.Solve syncFailEnv64 factorized64 [7] [0]).messageOf =
      some "Cuda device synchronization failed." := by
  decide

/-- C2: for every input matrix and every behaviour of the native routine,
Factorize classifies the signed status code exactly as the spec says, in the
Vendor backend and in both GPU variants (the GPU ones stated with the calls
leading up to the classification succeeding): a negative code escalates as
the `LOG(FATAL)` contract-violation path (the FatalError escalation), zero
returns Success, and a positive k returns Failure with a diagnostic naming k
as the first non-positive-definite leading-minor index. -/
theorem C2_factorize_status_classification
    (R : LapackRoutines) (stL : LAPACKDenseCholesky)
    (st32 : CUDADenseCholesky32Bit) (st64 : CUDADenseCholesky64Bit)
    (n dws hws : Nat) (lhs f s : List Int) (i j : Int) :
    (let info := (R.dpotrf n lhs).2
     (info < 0 →
       ∃ m, LAPACKDenseCholesky.Factorize R stL n lhs = COutcome.logFatal m) ∧
     (info = 0 →
       (LAPACKDenseCholesky.Factorize R stL n lhs).statusOf =
         some LINEAR_SOLVER_SUCCESS) ∧
     (0 < info →
       ∃ v, LAPACKDenseCholesky.Factorize R stL n lhs =
         COutcome.ok LINEAR_SOLVER_FAILURE
           ("LAPACK::dpotrf numerical failure. The leading minor of order "
             ++ toString info ++ " is not positive definite.") v)) ∧
    ((i < 0 →
       ∃ m, CUDADenseCholesky32Bit.Factorize
         ⟨true, dws, true, f, i, 0, 0, true, s, j⟩ st32 n lhs =
           COutcome.logFatal m) ∧
     (i = 0 →
       (CUDADenseCholesky32Bit.Factorize
         ⟨true, dws, true, f, i, 0, 0, true, s, j⟩ st32 n lhs).statusOf =
           some LINEAR_SOLVER_SUCCESS) ∧
     (0 < i →
       ∃ v, CUDADenseCholesky32Bit.Factorize
         ⟨true, dws, true, f, i, 0, 0, true, s, j⟩ st32 n lhs =
           COutcome.ok LINEAR_SOLVER_FAILURE
             ("cuSolverDN::cusolverDnDpotrf numerical failure. The leading minor of order "
               ++ toString i ++ " is not positive definite.") v)) ∧
    ((i < 0 →
       ∃ m, CUDADenseCholesky64Bit.Factorize
         ⟨true, hws, dws, true, f, i, 0, 0, true, s, j⟩ st64 n lhs =
           COutcome.logFatal m) ∧
     (i = 0 →
       (CUDADenseCholesky64Bit.Factorize
         ⟨true, hws, dws, true, f, i, 0, 0, true, s, j⟩ st64 n lhs).statusOf =
           some LINEAR_SOLVER_SUCCESS) ∧
     (0 < i →
       ∃ v, CUDADenseCholesky64Bit.Factorize
         ⟨true, hws, dws, true, f, i, 0, 0, true, s, j⟩ st64 n lhs =
           COutcome.ok LINEAR_SOLVER_FAILURE
             ("cuSolverDN::cusolverDnXpotrf numerical failure. The leading minor of order "
               ++ toString i ++ " is not positive definite.") v)) := by
  refine ⟨⟨?_, ?_, ?_⟩, ⟨?_, ?_, ?_⟩, ⟨?_, ?_, ?_⟩⟩
  · intro h
    unfold LAPACKDenseCholesky.Factorize
    dsimp only
    rw [if_pos h]
    exact ⟨_, rfl⟩
  · intro h
    unfold LAPACKDenseCholesky.Factorize
    simp [COutcome.statusOf, h]
  · intro h
    unfold LAPACKDenseCholesky.Factorize
    dsimp only
    rw [if_neg (by omega), if_pos (by omega)]
    exact ⟨_, rfl⟩
  · intro h
    unfold CUDADenseCholesky32Bit.Factorize
    simp [CudaBuffer.CopyToHost, commaOp, cudaSuccess, h]
  · intro h
    unfold CUDADenseCholesky32Bit.Factorize
    simp [CudaBuffer.CopyToHost, commaOp, cudaSuccess, COutcome.statusOf, h]
  · intro h
    unfold CUDADenseCholesky32Bit.Factorize
    simp [CudaBuffer.CopyToHost, commaOp, cudaSuccess, (by omega : i > 0)]
    rw [if_neg (by omega)]
    exact ⟨_, _, rfl⟩
  · intro h
    unfold CUDADenseCholesky64Bit.Factorize
    simp [CudaBuffer.CopyToHost, cudaSuccess, h]
  · intro h
    unfold CUDADenseCholesky64Bit.Factorize
    simp [CudaBuffer.CopyToHost, cudaSuccess, COutcome.statusOf, h]
  · intro h
    unfold CUDADenseCholesky64Bit.Factorize
    simp [CudaBuffer.CopyToHost, cudaSuccess, (by omega : i > 0)]
    rw [if_neg (by omega)]
    exact ⟨_, _, rfl⟩

/-- C3 counterexample: after a Factorize that returned FatalError (here the
workspace-size query failed, at n = 1, lhs = `[4]`), the 32-bit GPU Solve
does return immediately, but it returns FatalError — the recorded factorize
result — not Failure, and its diagnostic is the misspelt
"Factorize did not complete succesfully previously.", not the string the
claim quotes. -/
theorem C3_counterexample_solve_returns_recorded_status :
    (CUDADenseCholesky32Bit.Factorize bufSizeFailEnv32
        CUDADenseCholesky32Bit.afterInit 1 [4]).statusOf =
      some LINEAR_SOLVER_FATAL_ERROR ∧
    (CUDADenseCholesky32Bit.Solve bufSizeFailEnv32 fatalState32 [7] [0]).statusOf =
      some LINEAR_SOLVER_FATAL_ERROR ∧
    (CUDADenseCholesky32Bit.Solve bufSizeFailEnv32 fatalState32 [7] [0]).messageOf =
      some "Factorize did not complete succesfully previously." ∧
    LINEAR_SOLVER_FATAL_ERROR ≠ LINEAR_SOLVER_FAILURE ∧
    "Factorize did not complete succesfully previously." ≠
      "Factorize did not complete successfully previously" := by
  decide

/-- C3 as amended: only the GPU backends guard Solve. Whenever the recorded
factorize result is not Success, their Solve returns that recorded result
(Failure or FatalError) immediately, with the diagnostic
"Factorize did not complete succesfully previously." and no computation —
the solution buffer and the instance state are returned untouched. The Eigen
backend instead returns Failure with its own Eigen-failure diagnostic when
the stored decomposition did not succeed; the Vendor backend performs no
such check (see the C8 theorems). -/
theorem C3_solve_guard_behaviour (env32 : Cuda32Env) (env64 : Cuda64Env)
    (st32 : CUDADenseCholesky32Bit) (st64 : CUDADenseCholesky64Bit)
    (rhs sol : List Int) (c : Nat) (fn : List Int → List Int) :
    (st32.factorize_result_ = LINEAR_SOLVER_SUCCESS ∨
      CUDADenseCholesky32Bit.Solve env32 st32 rhs sol =
        COutcome.ok st32.factorize_result_
          "Factorize did not complete succesfully previously." (sol, st32)) ∧
    (st64.factorize_result_ = LINEAR_SOLVER_SUCCESS ∨
      CUDADenseCholesky64Bit.Solve env64 st64 rhs sol =
        COutcome.ok st64.factorize_result_
          "Factorize did not complete succesfully previously." (sol, st64)) ∧
    (EigenDenseCholesky.Solve
        { llt_ := some { info := false, cols := c, solveApply := fn } } rhs sol =
      COutcome.ok LINEAR_SOLVER_FAILURE
        "Eigen failure. Unable to perform dense Cholesky factorization."
        (sol, { llt_ := some { info := false, cols := c, solveApply := fn } })) := by
  refine ⟨?_, ?_, ?_⟩
  · by_cases h : st32.factorize_result_ = LINEAR_SOLVER_SUCCESS
    · exact Or.inl h
    · refine Or.inr ?_
      unfold CUDADenseCholesky32Bit.Solve
      rw [if_pos h]
  · by_cases h : st64.factorize_result_ = LINEAR_SOLVER_SUCCESS
    · exact Or.inl h
    · refine Or.inr ?_
      unfold CUDADenseCholesky64Bit.Solve
      rw [if_pos h]
  · rfl

/-- C4 counterexample: after a successful Factorize (n = 1, lhs = `[4]`),
with the triangular-solve kernel leaving the positive code 1 in the device
error cell, neither GPU variant classifies the cell as Factorize does: the
64-bit Solve `LOG(FATAL)`s (no Failure return at leading-minor index 1; the
process aborts), and the 32-bit Solve returns Success, never examining the
copied cell. -/
theorem C4_counterexample_solve_error_cell_not_classified :
    (CUDADenseCholesky64Bit.Solve badCellEnv64 factorized64 [7] [0]).statusOf =
      none ∧
    (CUDADenseCholesky64Bit.Solve badCellEnv64 factorized64 [7] [0]).messageOf =
      some "Congratulations, you found a bug in Ceres. Please report it. cuSolverDN::cusolverDnXpotrs fatal error. Argument: -1 is invalid." ∧
    (CUDADenseCholesky32Bit.Solve badCellEnv32 factorized32 [7] [0]).statusOf =
      some LINEAR_SOLVER_SUCCESS := by
  decide

/-- C4 as amended: after a successful Factorize (and with the kernel launch
and synchronizations succeeding), the 64-bit Solve copies the error cell
back and escalates any nonzero value as a `LOG(FATAL)` fatal error — there
is no Failure classification — copying the solution to the host and
returning Success only when the cell is zero; the 32-bit Solve copies the
solution back and returns Success regardless of the error cell: its check
examines a host variable that is still zero, and the value later copied
from the cell is discarded. -/
theorem C4_solve_error_cell_handling
    (st32 : CUDADenseCholesky32Bit) (st64 : CUDADenseCholesky64Bit)
    (dws hws : Nat) (f s rhs sol : List Int) (i j : Int) :
    ((j ≠ 0 →
       CUDADenseCholesky64Bit.Solve ⟨true, hws, dws, true, f, i, 0, 0, true, s, j⟩
         { st64 with factorize_result_ := LINEAR_SOLVER_SUCCESS } rhs sol =
       COutcome.logFatal
         ("Congratulations, you found a bug in Ceres. Please report it. cuSolverDN::cusolverDnXpotrs fatal error. Argument: "
           ++ toString (-j) ++ " is invalid.")) ∧
     (j = 0 →
       (CUDADenseCholesky64Bit.Solve ⟨true, hws, dws, true, f, i, 0, 0, true, s, j⟩
          { st64 with factorize_result_ := LINEAR_SOLVER_SUCCESS } rhs sol).statusOf =
         some LINEAR_SOLVER_SUCCESS ∧
       (CUDADenseCholesky64Bit.Solve ⟨true, hws, dws, true, f, i, 0, 0, true, s, j⟩
          { st64 with factorize_result_ := LINEAR_SOLVER_SUCCESS } rhs sol).bufOf =
         some (s.take st64.num_cols_ ++ sol.drop st64.num_cols_))) ∧
    ((CUDADenseCholesky32Bit.Solve ⟨true, dws, true, f, i, 0, 0, true, s, j⟩
        { st32 with factorize_result_ := LINEAR_SOLVER_SUCCESS } rhs sol).statusOf =
      some LINEAR_SOLVER_SUCCESS ∧
     (CUDADenseCholesky32Bit.Solve ⟨true, dws, true, f, i, 0, 0, true, s, j⟩
        { st32 with factorize_result_ := LINEAR_SOLVER_SUCCESS } rhs sol).bufOf =
      some (s.take st32.num_cols_ ++ sol.drop st32.num_cols_)) := by
  refine ⟨⟨?_, ?_⟩, ?_, ?_⟩
  · intro h
    unfold CUDADenseCholesky64Bit.Solve
    simp [CudaBuffer.CopyToHost, cudaSuccess, h]
  · intro h
    subst h
    unfold CUDADenseCholesky64Bit.Solve
    constructor
    · simp [CudaBuffer.CopyToHost, cudaSuccess, COutcome.statusOf]
    · simp [CudaBuffer.CopyToHost, cudaSuccess, COutcome.bufOf]
  · unfold CUDADenseCholesky32Bit.Solve
    simp [CudaBuffer.CopyToHost, commaOp, cudaSuccess, COutcome.statusOf]
  · unfold CUDADenseCholesky32Bit.Solve
    simp [CudaBuffer.CopyToHost, commaOp, cudaSuccess, COutcome.bufOf]

/-- C5 counterexample: with the triangular-solve routine returning the
positive status code 1 (on the factorized instance with n = 1, factor `[2]`,
rhs `[7]`), the Vendor backend's Solve returns Success, not Failure: Solve
has no positive-code branch at all. -/
theorem C5_counterexample_positive_code_is_success :
    (positiveInfoRoutines.dpotrs 1 [2] (copy_n [7] 1 [0])).2 = 1 ∧
    (LAPACKDenseCholesky.Solve positiveInfoRoutines lapackFactorizedState
        [7] [0]).statusOf = some LINEAR_SOLVER_SUCCESS ∧
    (LAPACKDenseCholesky.Solve positiveInfoRoutines lapackFactorizedState
        [7] [0]).messageOf = some "Success" ∧
    LINEAR_SOLVER_SUCCESS ≠ LINEAR_SOLVER_FAILURE := by
  decide

/-- C5 as amended: the Vendor backend's Solve first copies rhs into the
solution buffer (the caller's rhs is not consumed) and then classifies the
`dpotrs_` status code as: negative escalates as the `LOG(FATAL)`
contract-violation path naming the invalid argument; any nonnegative code —
zero or positive — falls through to Success. Solve has no Failure
classification. -/
theorem C5_lapack_solve_status_classification (R : LapackRoutines)
    (st : LAPACKDenseCholesky) (rhs sol : List Int) :
    (let p := R.dpotrs st.num_cols_ st.lhs_ (copy_n rhs st.num_cols_ sol)
     (p.2 < 0 →
       LAPACKDenseCholesky.Solve R st rhs sol =
         COutcome.logFatal
           ("Congratulations, you found a bug in Ceres. Please report it. LAPACK::dpotrs fatal error. Argument: "
             ++ toString (-p.2) ++ " is invalid.")) ∧
     (0 ≤ p.2 →
       LAPACKDenseCholesky.Solve R st rhs sol =
         COutcome.ok LINEAR_SOLVER_SUCCESS "Success"
           (p.1, { st with termination_type_ := LINEAR_SOLVER_SUCCESS }))) := by
  refine ⟨?_, ?_⟩
  · intro h
    unfold LAPACKDenseCholesky.Solve
    dsimp only
    rw [if_pos h]
  · intro h
    unfold LAPACKDenseCholesky.Solve
    dsimp only
    rw [if_neg (by omega)]

/-- C6 counterexample: on the same inputs (the factorized n = 1 instances,
rhs `[7]`, solution buffer `[0]`) and the same device behaviour — every call
succeeding except both synchronizations, which return the error code 1 — the
32-bit Solve returns Success while the 64-bit Solve returns FatalError: the
variants' observable behavior differs beyond the numeric index type. -/
theorem C6_counterexample_variants_diverge_on_sync_failure :
    (CUDADenseCholesky32Bit.Solve syncFailEnv32 factorized32 [7] [0]).statusOf =
      some LINEAR_SOLVER_SUCCESS ∧
    (CUDADenseCholesky64Bit.Solve syncFailEnv64 factorized64 [7] [0]).statusOf =
      some LINEAR_SOLVER_FATAL_ERROR ∧
    LINEAR_SOLVER_SUCCESS ≠ LINEAR_SOLVER_FATAL_ERROR := by
  decide

/-- C6 as amended: the two variants do return the same status and the same
solution whenever every external device call succeeds — kernel launches and
both synchronizations succeed and, for Solve, the error cell is zero — for
any factorization error-cell value; they diverge exactly where the 32-bit
variant's dead synchronization check and stale post-solve error check ignore
failures the 64-bit variant reports. -/
theorem C6_variants_agree_when_device_succeeds
    (st32 : CUDADenseCholesky32Bit) (st64 : CUDADenseCholesky64Bit)
    (n dws hws : Nat) (lhs f s rhs sol : List Int) (i : Int) :
    ((CUDADenseCholesky32Bit.Factorize ⟨true, dws, true, f, i, 0, 0, true, s, 0⟩
        st32 n lhs).statusOf =
      (CUDADenseCholesky64Bit.Factorize ⟨true, hws, dws, true, f, i, 0, 0, true, s, 0⟩
        st64 n lhs).statusOf) ∧
    ((CUDADenseCholesky32Bit.Solve ⟨true, dws, true, f, i, 0, 0, true, s, 0⟩
        { st32 with num_cols_ := n, factorize_result_ := LINEAR_SOLVER_SUCCESS }
        rhs sol).statusOf =
      (CUDADenseCholesky64Bit.Solve ⟨true, hws, dws, true, f, i, 0, 0, true, s, 0⟩
        { st64 with num_cols_ := n, factorize_result_ := LINEAR_SOLVER_SUCCESS }
        rhs sol).statusOf) ∧
    ((CUDADenseCholesky32Bit.Solve ⟨true, dws, true, f, i, 0, 0, true, s, 0⟩
        { st32 with num_cols_ := n, factorize_result_ := LINEAR_SOLVER_SUCCESS }
        rhs sol).bufOf =
      (CUDADenseCholesky64Bit.Solve ⟨true, hws, dws, true, f, i, 0, 0, true, s, 0⟩
        { st64 with num_cols_ := n, factorize_result_ := LINEAR_SOLVER_SUCCESS }
        rhs sol).bufOf) := by
  refine ⟨?_, ?_, ?_⟩
  · unfold CUDADenseCholesky32Bit.Factorize CUDADenseCholesky64Bit.Factorize
    rcases lt_trichotomy i 0 with h | h | h
    · simp [CudaBuffer.CopyToHost, commaOp, cudaSuccess, h, COutcome.statusOf]
    · simp [CudaBuffer.CopyToHost, commaOp, cudaSuccess, h, COutcome.statusOf]
    · simp [CudaBuffer.CopyToHost, commaOp, cudaSuccess, COutcome.statusOf,
        (by omega : ¬ i < 0), (by omega : i > 0)]
      simp only [if_neg (by omega : ¬ i < 0)]
  · unfold CUDADenseCholesky32Bit.Solve CUDADenseCholesky64Bit.Solve
    simp [CudaBuffer.CopyToHost, commaOp, cudaSuccess, COutcome.statusOf]
  · unfold CUDADenseCholesky32Bit.Solve CUDADenseCholesky64Bit.Solve
    simp [CudaBuffer.CopyToHost, commaOp, cudaSuccess, COutcome.bufOf]

/-- C8 counterexample: on the Vendor backend, after a Factorize that
returned Failure (leading-minor 1, at n = 1, lhs `[5]`), Solve does not stop:
it copies rhs `[7]` over the solution buffer `[0]`, runs the triangular
solve, and returns Success — the claim's non-Success status and untouched
solution buffer both fail. -/
theorem C8_counterexample_lapack_solve_after_failed_factorize :
    (LAPACKDenseCholesky.Factorize failThenSolveRoutines
        LAPACKDenseCholesky.fresh 1 [5]).statusOf = some LINEAR_SOLVER_FAILURE ∧
    LAPACKDenseCholesky.Solve failThenSolveRoutines failedLapackState [7] [0] =
      COutcome.ok LINEAR_SOLVER_SUCCESS "Success"
        ([7], { lhs_ := [5], num_cols_ := 1,
                termination_type_ := LINEAR_SOLVER_SUCCESS }) ∧
    ([7] : List Int) ≠ [0] := by
  decide

/-- C8 as amended: the GPU backends' Solve, invoked while the recorded
factorize result is not Success (before any Factorize or after a failed
one), returns that non-Success status and hands the solution buffer back
unchanged; the Eigen backend does the same after a Factorize that returned
Failure (returning Failure), but before any Factorize its Solve is
undefined (null dereference); and the Vendor backend's Solve has no guard at
all — whatever the recorded termination type, it overwrites the solution
buffer with the routine's output over a copy of rhs and returns Success
whenever the routine's code is nonnegative. -/
theorem C8_solve_without_success_frame (env32 : Cuda32Env) (env64 : Cuda64Env)
    (st32 : CUDADenseCholesky32Bit) (st64 : CUDADenseCholesky64Bit)
    (rhs sol L : List Int) (m c : Nat) (fn : List Int → List Int)
    (t : LinearSolverTerminationType) (R : LapackRoutines) :
    (st32.factorize_result_ = LINEAR_SOLVER_SUCCESS ∨
      (CUDADenseCholesky32Bit.Solve env32 st32 rhs sol =
        COutcome.ok st32.factorize_result_
          "Factorize did not complete succesfully previously." (sol, st32) ∧
       st32.factorize_result_ ≠ LINEAR_SOLVER_SUCCESS)) ∧
    (st64.factorize_result_ = LINEAR_SOLVER_SUCCESS ∨
      (CUDADenseCholesky64Bit.Solve env64 st64 rhs sol =
        COutcome.ok st64.factorize_result_
          "Factorize did not complete succesfully previously." (sol, st64) ∧
       st64.factorize_result_ ≠ LINEAR_SOLVER_SUCCESS)) ∧
    (EigenDenseCholesky.Solve
        { llt_ := some { info := false, cols := c, solveApply := fn } } rhs sol =
      COutcome.ok LINEAR_SOLVER_FAILURE
        "Eigen failure. Unable to perform dense Cholesky factorization."
        (sol, { llt_ := some { info := false, cols := c, solveApply := fn } })) ∧
    (EigenDenseCholesky.initial.Solve rhs sol = COutcome.undef) ∧
    (0 ≤ (R.dpotrs m L (copy_n rhs m sol)).2 →
       LAPACKDenseCholesky.Solve R
           { lhs_ := L, num_cols_ := m, termination_type_ := t } rhs sol =
         COutcome.ok LINEAR_SOLVER_SUCCESS "Success"
           ((R.dpotrs m L (copy_n rhs m sol)).1,
            { lhs_ := L, num_cols_ := m,
              termination_type_ := LINEAR_SOLVER_SUCCESS })) := by
  refine ⟨?_, ?_, rfl, rfl, ?_⟩
  · by_cases h : st32.factorize_result_ = LINEAR_SOLVER_SUCCESS
    · exact Or.inl h
    · refine Or.inr ⟨?_, h⟩
      unfold CUDADenseCholesky32Bit.Solve
      rw [if_pos h]
  · by_cases h : st64.factorize_result_ = LINEAR_SOLVER_SUCCESS
    · exact Or.inl h
    · refine Or.inr ⟨?_, h⟩
      unfold CUDADenseCholesky64Bit.Solve
      rw [if_pos h]
  · intro h
    unfold LAPACKDenseCholesky.Solve
    dsimp only
    rw [if_neg (by omega)]

end Ceres
